import Mathlib

/-!
Verification development for the Gemini Adventure Weaver repository: a
single-page interactive-fiction game whose `App` component owns the session
state, sequences calls to an external story/image service, and renders the
view.  The definitions below are a shallow embedding of the `App` component
(`src/unnamed/part_000`) and of the data model (`src/types.ts`): each async
handler becomes a pure function from the pre-invocation state and the
outcomes of the awaited service calls to the post-invocation state, paired
with a record of the story-service call it issued.
-/

/-- `GameStateFromAI` from `types.ts`: one scene produced by the AI. -/
structure GameStateFromAI where
  sceneDescription : String
  imagePrompt : String
  choices : List String
  gameOver : Bool
  gameOverMessage : Option String
  deriving Repr, DecidableEq

/-- The `App` component's React state hooks (lines 13-20 of the source). -/
structure AppState where
  gameState : Option GameStateFromAI
  currentImageUrl : Option String
  storyLog : List String
  isLoading : Bool
  isImageLoading : Bool
  error : Option String
  gameStarted : Bool
  apiKeyMissing : Bool
  deriving Repr, DecidableEq

/-- Error message set by the startup effect when the API key is absent. -/
def apiKeyMissingError : String :=
  "API Key is missing. Please ensure the API_KEY environment variable is set."

/-- Error message for `getInitialScene` returning no data (line 48). -/
def startNoDataError : String :=
  "Failed to initialize game: No data received from AI."

/-- Error message for `getNextScene` returning no data (line 91). -/
def nextNoDataError : String :=
  "Failed to get next scene: No data received from AI."

/-- Message of the critical error screen (line 114). -/
def criticalErrorText : String :=
  "CRITICAL ERROR: API Key is not configured. The application cannot function. Please set the API_KEY environment variable."

/-- Fallback banner message when the key is missing (line 134). -/
def limitedBannerText : String :=
  "API Key is missing, game functionality is limited."

/-- The initial values of all `useState` hooks. -/
def initialState : AppState :=
  { gameState := none
    currentImageUrl := none
    storyLog := []
    isLoading := false
    isImageLoading := false
    error := none
    gameStarted := false
    apiKeyMissing := false }

/-- The state after mount: the `useEffect` (lines 22-27) checks the API key
once at startup and, when absent, sets `apiKeyMissing` and `error`. -/
def initApp (apiKeyPresent : Bool) : AppState :=
  if apiKeyPresent then initialState
  else { initialState with apiKeyMissing := true, error := some apiKeyMissingError }

/-- Outcome of an awaited service call: a resolved value, or a rejection
carrying the message the `catch` block will surface. -/
inductive ServiceResult (α : Type) where
  | ok : α → ServiceResult α
  | thrown : String → ServiceResult α
  deriving Repr, DecidableEq

/-- A story-service (text-generation) call the orchestrator issues. -/
inductive TextCall where
  | initialScene (theme : String)
  | nextScene (currentScene : String) (choice : String) (log : List String)
  deriving Repr, DecidableEq

/-- `handleStartGame` (lines 29-56): guard on `apiKeyMissing`; set loading,
clear error/log/image; await `getInitialScene`; on data, install the scene,
reset the log, mark the game started, and (when an image prompt is present)
await `generateImage`; errors from either await land in the `catch` which
sets `error`; the `finally` clears `isLoading`.  Returns the final state and
the story call issued. -/
def handleStartGame (s : AppState) (theme : String)
    (textRes : ServiceResult (Option GameStateFromAI))
    (imgRes : ServiceResult String) : AppState × Option TextCall :=
  if s.apiKeyMissing then (s, none)
  else
    let s1 := { s with isLoading := true, error := none, storyLog := [],
                       currentImageUrl := none }
    let s2 :=
      match textRes with
      | .thrown msg => { s1 with error := some msg }
      | .ok none => { s1 with error := some startNoDataError }
      | .ok (some d) =>
        let s3 := { s1 with gameState := some d,
                            storyLog := [d.sceneDescription],
                            gameStarted := true }
        if d.imagePrompt = "" then s3
        else
          let s4 := { s3 with isImageLoading := true }
          match imgRes with
          | .ok url => { s4 with currentImageUrl := some url, isImageLoading := false }
          | .thrown msg => { s4 with error := some msg }
    ({ s2 with isLoading := false }, some (.initialScene theme))

/-- The state in which `handleChoiceSelected` issues its `getNextScene`
request (lines 61-63): loading set, error cleared, previous image cleared. -/
def choicePreCallState (s : AppState) : AppState :=
  { s with isLoading := true, error := none, currentImageUrl := none }

/-- `handleChoiceSelected` (lines 58-99): guard on missing `gameState` or
`apiKeyMissing`; set loading, clear error and previous image; await
`getNextScene(gameState.sceneDescription, choice, storyLog)`; on data,
install the scene, append its description to the log unless `gameOver`, and
(when an image prompt is present, in both the game-over and non-game-over
branches) await `generateImage`; errors land in the `catch` which sets
`error`; the `finally` clears `isLoading`. -/
def handleChoiceSelected (s : AppState) (choice : String)
    (textRes : ServiceResult (Option GameStateFromAI))
    (imgRes : ServiceResult String) : AppState × Option TextCall :=
  match s.gameState with
  | none => (s, none)
  | some gs =>
    if s.apiKeyMissing then (s, none)
    else
      let s1 := choicePreCallState s
      let s2 :=
        match textRes with
        | .thrown msg => { s1 with error := some msg }
        | .ok none => { s1 with error := some nextNoDataError }
        | .ok (some d) =>
          let s3 := { s1 with gameState := some d }
          if d.gameOver = false then
            let s4 := { s3 with storyLog := s3.storyLog ++ [d.sceneDescription] }
            if d.imagePrompt = "" then s4
            else
              let s5 := { s4 with isImageLoading := true }
              match imgRes with
              | .ok url => { s5 with currentImageUrl := some url, isImageLoading := false }
              | .thrown msg => { s5 with error := some msg }
          else
            if d.imagePrompt = "" then s3
            else
              let s5 := { s3 with isImageLoading := true }
              match imgRes with
              | .ok url => { s5 with currentImageUrl := some url, isImageLoading := false }
              | .thrown msg => { s5 with error := some msg }
      ({ s2 with isLoading := false },
       some (.nextScene gs.sceneDescription choice s.storyLog))

/-- `handleRestartGame` (lines 101-109): resets `gameStarted`, `gameState`,
`currentImageUrl`, `storyLog`, `error`, `isLoading`, `isImageLoading`;
does not touch `apiKeyMissing`. -/
def handleRestartGame (s : AppState) : AppState :=
  { s with gameStarted := false
           gameState := none
           currentImageUrl := none
           storyLog := []
           error := none
           isLoading := false
           isImageLoading := false }

/-- Contents of the in-game panel rendered when `gameState` is present
(lines 138-144): image display, scene text, optional loading indicator, and
the choices list, which is rendered only when `isLoading` is false. -/
structure ScenePanel where
  imageUrl : Option String
  imageAlt : String
  imageLoading : Bool
  description : String
  sceneLoading : Bool
  choices : Option (List String)
  deriving Repr, DecidableEq

/-- What the `App` component returns (lines 111-151). -/
inductive View where
  | criticalError (message : String)
  | startScreen (isLoading : Bool)
  | gameOverScreen (message : Option String)
  | mainScreen (banner : String) (topLoading : Bool) (panel : Option ScenePanel)
  deriving Repr, DecidableEq

/-- The `ErrorMessage` banner of the main screen (line 134):
`error || (apiKeyMissing ? limited : "")` with JS string truthiness. -/
def bannerText (s : AppState) : String :=
  match s.error with
  | some e => if e = "" then (if s.apiKeyMissing then limitedBannerText else "") else e
  | none => if s.apiKeyMissing then limitedBannerText else ""

/-- JS truthiness of `gameState?.sceneDescription` (line 136). -/
def sceneTextPresent (s : AppState) : Bool :=
  match s.gameState with
  | some gs => !(gs.sceneDescription == "")
  | none => false

/-- `imagePrompt || "Scene image"` (line 140). -/
def imageAltText (gs : GameStateFromAI) : String :=
  if gs.imagePrompt = "" then "Scene image" else gs.imagePrompt

/-- The render function of `App` (lines 111-151): critical error screen when
the key is missing and the game has not started; start screen when not
started; game-over screen when the current scene has `gameOver`; otherwise
the main screen, whose choices list is present only when `isLoading` is
false. -/
def render (s : AppState) : View :=
  if s.apiKeyMissing && !s.gameStarted then .criticalError criticalErrorText
  else if !s.gameStarted then .startScreen s.isLoading
  else
    match s.gameState with
    | some gs =>
      if gs.gameOver then .gameOverScreen gs.gameOverMessage
      else
        .mainScreen (bannerText s) (s.isLoading && !(sceneTextPresent s))
          (some { imageUrl := s.currentImageUrl
                  imageAlt := imageAltText gs
                  imageLoading := s.isImageLoading
                  description := gs.sceneDescription
                  sceneLoading := s.isLoading && !(gs.sceneDescription == "")
                  choices := if s.isLoading then none else some gs.choices })
    | none => .mainScreen (bannerText s) (s.isLoading && !(sceneTextPresent s)) none

/-- Whether the rendered view wires up `onStartGame` (line 120). -/
def offersStart : View → Bool
  | .startScreen _ => true
  | _ => false

/-- Whether the rendered view wires up `onRestart` (line 124): only the
game-over screen does. -/
def offersRestart : View → Bool
  | .gameOverScreen _ => true
  | _ => false

/-- Whether the rendered view shows a `ChoicesList` the player can use
(line 143): only the main screen with a panel whose choices are present. -/
def offersChoices : View → Bool
  | .mainScreen _ _ (some p) => p.choices.isSome
  | _ => false

/-- A user event together with the outcomes of the service calls the
triggered handler will await. -/
inductive Event where
  | start (theme : String) (textRes : ServiceResult (Option GameStateFromAI))
      (imgRes : ServiceResult String)
  | choose (choice : String) (textRes : ServiceResult (Option GameStateFromAI))
      (imgRes : ServiceResult String)
  | restartClick
  deriving Repr

/-- One user interaction with the rendered app: a handler can only fire if
the current render wires it to a visible control. -/
def dispatch (s : AppState) : Event → AppState × Option TextCall
  | .start theme tr ir =>
    if offersStart (render s) then handleStartGame s theme tr ir else (s, none)
  | .choose c tr ir =>
    if offersChoices (render s) then handleChoiceSelected s c tr ir else (s, none)
  | .restartClick =>
    if offersRestart (render s) then (handleRestartGame s, none) else (s, none)

/-- A sequence of user interactions, accumulating the story calls issued. -/
def run (s : AppState) : List Event → AppState × List TextCall
  | [] => (s, [])
  | e :: es =>
    let p := dispatch s e
    let q := run p.1 es
    (q.1, p.2.toList ++ q.2)

/-- The scene of the spec's worked scenario. -/
def libraryScene : GameStateFromAI :=
  { sceneDescription := "You stand before a library..."
    imagePrompt := "a haunted library exterior"
    choices := ["Enter", "Walk away"]
    gameOver := false
    gameOverMessage := none }

/-- A reachable Playing state: the library scene installed, its image shown. -/
def libraryPlayingState : AppState :=
  { gameState := some libraryScene
    currentImageUrl := some "img-001"
    storyLog := ["You stand before a library..."]
    isLoading := false
    isImageLoading := false
    error := none
    gameStarted := true
    apiKeyMissing := false }

/-- The Playing state while a text request is in flight. -/
def libraryLoadingState : AppState :=
  { libraryPlayingState with isLoading := true }

/-- The game-over continuation of the spec's worked scenario. -/
def stacksEnding : GameStateFromAI :=
  { sceneDescription := "The stacks close in."
    imagePrompt := "endless dark shelves"
    choices := []
    gameOver := true
    gameOverMessage := some "You vanish into the stacks forever." }

/-- C3: from every session state, restart yields the initial empty session
state on every session field it owns — `gameState` null, image reference
null, story log empty, error null, both loading flags false, `gameStarted`
false — and restart is idempotent. -/
theorem C3_restart_resets_and_is_idempotent (s : AppState) :
    (handleRestartGame s).gameState = none ∧
    (handleRestartGame s).currentImageUrl = none ∧
    (handleRestartGame s).storyLog = [] ∧
    (handleRestartGame s).error = none ∧
    (handleRestartGame s).isLoading = false ∧
    (handleRestartGame s).isImageLoading = false ∧
    (handleRestartGame s).gameStarted = false ∧
    handleRestartGame (handleRestartGame s) = handleRestartGame s :=
  ⟨rfl, rfl, rfl, rfl, rfl, rfl, rfl, rfl⟩

/-- C10: restart resets exactly the seven session fields and leaves the
credential flag `apiKeyMissing` unchanged, so after a restart with missing
credentials the app still renders the critical error screen. -/
theorem C10_restart_preserves_credential_flag (s : AppState) :
    handleRestartGame s = { initialState with apiKeyMissing := s.apiKeyMissing } ∧
    (handleRestartGame s).apiKeyMissing = s.apiKeyMissing ∧
    (s.apiKeyMissing = true →
      render (handleRestartGame s) = View.criticalError criticalErrorText) := by
  refine ⟨rfl, rfl, fun h => ?_⟩
  simp [render, handleRestartGame, h]

/-- Witness for C10 at the post-startup state with the key absent. -/
theorem C10_witness :
    render (handleRestartGame (initApp false)) = View.criticalError criticalErrorText :=
  (C10_restart_preserves_credential_flag (initApp false)).2.2 rfl

/-- C2: while the text-loading flag is set, no choices control is rendered,
so a choose event is not accepted: no `getNextScene` call is made and the
session state is unchanged. -/
theorem C2_loading_flag_gates_choice (s : AppState) (choice : String)
    (tr : ServiceResult (Option GameStateFromAI)) (ir : ServiceResult String)
    (h : s.isLoading = true) :
    offersChoices (render s) = false ∧
    dispatch s (.choose choice tr ir) = (s, none) := by
  have hoc : offersChoices (render s) = false := by
    obtain ⟨g, img, log, il, iil, er, gst, akm⟩ := s
    simp only at h
    subst h
    cases akm <;> cases gst <;> rcases g with _ | gs <;>
      first
      | rfl
      | (cases hov : gs.gameOver <;> simp [render, offersChoices, hov])
  exact ⟨hoc, by simp [dispatch, hoc]⟩

/-- Witness for C2: a choose event in the loading Playing state. -/
theorem C2_witness :
    offersChoices (render libraryLoadingState) = false ∧
    dispatch libraryLoadingState (.choose "Enter" (.ok (some stacksEnding)) (.ok "u"))
      = (libraryLoadingState, none) :=
  C2_loading_flag_gates_choice libraryLoadingState "Enter"
    (.ok (some stacksEnding)) (.ok "u") rfl

/-- C7: when the credential is absent at startup, every subsequent sequence
of user events issues no story-generation call and leaves the session in
the post-startup state, whose render is the critical error screen (so
neither `startGame` nor `chooseOption` is ever invocable). -/
theorem C7_missing_key_locks_app (events : List Event) :
    run (initApp false) events = (initApp false, []) ∧
    render (run (initApp false) events).1 = View.criticalError criticalErrorText := by
  have hstep : ∀ e, dispatch (initApp false) e = (initApp false, none) := by
    intro e
    cases e <;> rfl
  have hrun : ∀ es, run (initApp false) es = (initApp false, []) := by
    intro es
    induction es with
    | nil => rfl
    | cons e es ih => simp [run, hstep e, ih]
  refine ⟨hrun events, ?_⟩
  rw [hrun events]
  rfl

/-- C8: a choose event in the Playing state clears the displayed image in
the state from which the text request is issued, and `getNextScene` is
called with exactly the current scene's description, the chosen choice,
and the current story log. -/
theorem C8_choice_clears_image_and_passes_context (s : AppState)
    (gs : GameStateFromAI) (choice : String)
    (tr : ServiceResult (Option GameStateFromAI)) (ir : ServiceResult String)
    (hgs : s.gameState = some gs) (hkey : s.apiKeyMissing = false) :
    (choicePreCallState s).currentImageUrl = none ∧
    (handleChoiceSelected s choice tr ir).2
      = some (.nextScene gs.sceneDescription choice s.storyLog) := by
  refine ⟨rfl, ?_⟩
  simp [handleChoiceSelected, hgs, hkey]

/-- Witness for C8 at the spec's worked scenario: choosing "Enter" with
story log `["You stand before a library..."]`. -/
theorem C8_witness :
    (choicePreCallState libraryPlayingState).currentImageUrl = none ∧
    (handleChoiceSelected libraryPlayingState "Enter"
        (.ok (some stacksEnding)) (.ok "url-2")).2
      = some (.nextScene "You stand before a library..." "Enter"
          ["You stand before a library..."]) :=
  C8_choice_clears_image_and_passes_context libraryPlayingState libraryScene
    "Enter" (.ok (some stacksEnding)) (.ok "url-2") rfl rfl

/-- C5: the story log is append-only within a playthrough: a successful
`startGame` resets it to exactly the initial scene description; a
successful non-game-over `chooseOption` appends exactly the new scene's
description; a game-over response, a thrown request, and an empty response
leave it unchanged; restart clears it. -/
theorem C5_storylog_append_only (s : AppState) (gs : GameStateFromAI)
    (theme choice msg : String) (d dOver : GameStateFromAI)
    (ir : ServiceResult String)
    (hkey : s.apiKeyMissing = false) (hgs : s.gameState = some gs)
    (hd : d.gameOver = false) (hov : dOver.gameOver = true) :
    (handleStartGame s theme (.ok (some d)) ir).1.storyLog = [d.sceneDescription] ∧
    (handleChoiceSelected s choice (.ok (some d)) ir).1.storyLog
      = s.storyLog ++ [d.sceneDescription] ∧
    (handleChoiceSelected s choice (.ok (some dOver)) ir).1.storyLog = s.storyLog ∧
    (handleChoiceSelected s choice (.thrown msg) ir).1.storyLog = s.storyLog ∧
    (handleChoiceSelected s choice (.ok none) ir).1.storyLog = s.storyLog ∧
    (handleRestartGame s).storyLog = [] := by
  refine ⟨?_, ?_, ?_, ?_, ?_, rfl⟩
  · simp only [handleStartGame, hkey]
    simp only [Bool.false_eq_true, if_false]
    split
    · rfl
    · cases ir <;> rfl
  · simp only [handleChoiceSelected, hgs, hkey, choicePreCallState]
    simp only [Bool.false_eq_true, if_false, hd, if_true]
    split
    · rfl
    · cases ir <;> rfl
  · simp only [handleChoiceSelected, hgs, hkey, choicePreCallState, hov]
    simp only [Bool.false_eq_true, Bool.true_eq_false, if_false]
    split
    · rfl
    · cases ir <;> rfl
  · simp [handleChoiceSelected, hgs, hkey, choicePreCallState]
  · simp [handleChoiceSelected, hgs, hkey, choicePreCallState]

/-- Witness for C5: concrete scenes in the library playthrough. -/
theorem C5_witness :
    (handleStartGame libraryPlayingState "haunted library"
        (.ok (some libraryScene)) (.ok "url-1")).1.storyLog
      = [libraryScene.sceneDescription] ∧
    (handleChoiceSelected libraryPlayingState "Enter"
        (.ok (some libraryScene)) (.ok "url-1")).1.storyLog
      = libraryPlayingState.storyLog ++ [libraryScene.sceneDescription] ∧
    (handleChoiceSelected libraryPlayingState "Enter"
        (.ok (some stacksEnding)) (.ok "url-1")).1.storyLog
      = libraryPlayingState.storyLog :=
  have h := C5_storylog_append_only libraryPlayingState libraryScene
    "haunted library" "Enter" "boom" libraryScene stacksEnding (.ok "url-1")
    rfl rfl rfl rfl
  ⟨h.1, h.2.1, h.2.2.1⟩

/-- C9: when the scene response carries a non-empty image prompt and the
image request throws, both handlers terminate with `isImageLoading` still
true: the flag is set before the request and reset only on the success
path, not in the `catch` or `finally`. -/
theorem C9_image_failure_leaves_flag_set (s : AppState) (gs : GameStateFromAI)
    (theme choice msg : String) (d : GameStateFromAI)
    (hkey : s.apiKeyMissing = false) (hgs : s.gameState = some gs)
    (hprompt : ¬d.imagePrompt = "") :
    (handleStartGame s theme (.ok (some d)) (.thrown msg)).1.isImageLoading = true ∧
    (handleChoiceSelected s choice (.ok (some d)) (.thrown msg)).1.isImageLoading
      = true := by
  constructor
  · simp [handleStartGame, hkey, hprompt]
  · simp only [handleChoiceSelected, hgs, hkey, choicePreCallState]
    simp only [Bool.false_eq_true, if_false]
    cases hov : d.gameOver <;> simp [hov, hprompt]

/-- Witness for C9 at the library scene with a failing image service. -/
theorem C9_witness :
    (handleStartGame libraryPlayingState "haunted library"
        (.ok (some libraryScene)) (.thrown "image service down")).1.isImageLoading
      = true ∧
    (handleChoiceSelected libraryPlayingState "Enter"
        (.ok (some libraryScene)) (.thrown "image service down")).1.isImageLoading
      = true :=
  C9_image_failure_leaves_flag_set libraryPlayingState libraryScene
    "haunted library" "Enter" "image service down" libraryScene
    rfl rfl (by decide)

/-- C1: when the scene response succeeds but the image request throws, the
game is not aborted: `startGame` still installs the scene with the game
started and the error recorded, and after `chooseOption` the app still
renders the main screen with the new scene's text and choices, a blank
image, and the error message in the non-blocking banner (or the game-over
screen when the response ended the game). -/
theorem C1_image_failure_is_nonfatal (s : AppState) (gs : GameStateFromAI)
    (theme choice msg : String) (d dOver : GameStateFromAI)
    (hkey : s.apiKeyMissing = false) (hgs : s.gameState = some gs)
    (hstarted : s.gameStarted = true)
    (hprompt : ¬d.imagePrompt = "") (hovp : ¬dOver.imagePrompt = "")
    (hmsg : ¬msg = "")
    (hover : d.gameOver = false) (hov2 : dOver.gameOver = true) :
    ((handleStartGame s theme (.ok (some d)) (.thrown msg)).1.gameState = some d ∧
     (handleStartGame s theme (.ok (some d)) (.thrown msg)).1.gameStarted = true ∧
     (handleStartGame s theme (.ok (some d)) (.thrown msg)).1.currentImageUrl = none ∧
     (handleStartGame s theme (.ok (some d)) (.thrown msg)).1.error = some msg ∧
     (handleStartGame s theme (.ok (some d)) (.thrown msg)).1.isLoading = false) ∧
    (render (handleChoiceSelected s choice (.ok (some d)) (.thrown msg)).1
       = View.mainScreen msg false
           (some { imageUrl := none
                   imageAlt := d.imagePrompt
                   imageLoading := true
                   description := d.sceneDescription
                   sceneLoading := false
                   choices := some d.choices })) ∧
    (render (handleChoiceSelected s choice (.ok (some dOver)) (.thrown msg)).1
       = View.gameOverScreen dOver.gameOverMessage) := by
  refine ⟨⟨?_, ?_, ?_, ?_, ?_⟩, ?_, ?_⟩ <;>
    simp [handleStartGame, handleChoiceSelected, choicePreCallState, render,
          bannerText, sceneTextPresent, imageAltText,
          hkey, hgs, hstarted, hprompt, hovp, hmsg, hover, hov2]

/-- Witness for C1: image failure after the library scene, and after a
game-over continuation. -/
theorem C1_witness :
    (handleStartGame libraryPlayingState "haunted library"
        (.ok (some libraryScene)) (.thrown "image service down")).1.error
      = some "image service down" ∧
    render (handleChoiceSelected libraryPlayingState "Enter"
        (.ok (some libraryScene)) (.thrown "image service down")).1
      = View.mainScreen "image service down" false
          (some { imageUrl := none
                  imageAlt := libraryScene.imagePrompt
                  imageLoading := true
                  description := libraryScene.sceneDescription
                  sceneLoading := false
                  choices := some libraryScene.choices }) ∧
    render (handleChoiceSelected libraryPlayingState "Enter"
        (.ok (some stacksEnding)) (.thrown "image service down")).1
      = View.gameOverScreen stacksEnding.gameOverMessage :=
  have h := C1_image_failure_is_nonfatal libraryPlayingState libraryScene
    "haunted library" "Enter" "image service down" libraryScene stacksEnding
    rfl rfl rfl (by decide) (by decide) (by decide) rfl rfl
  ⟨h.1.2.2.2.1, h.2.1, h.2.2⟩

/-- C6: a response with `gameOver = true` — whatever the image outcome —
leaves the app rendering the game-over screen with the response's
`gameOverMessage`; that view offers no choices and only the restart
control; the same holds when the opening scene already has `gameOver`. -/
theorem C6_gameover_response_shows_gameover_screen (s : AppState)
    (gs : GameStateFromAI) (theme choice : String) (d : GameStateFromAI)
    (ir : ServiceResult String)
    (hkey : s.apiKeyMissing = false) (hgs : s.gameState = some gs)
    (hstarted : s.gameStarted = true) (hover : d.gameOver = true) :
    render (handleChoiceSelected s choice (.ok (some d)) ir).1
      = View.gameOverScreen d.gameOverMessage ∧
    offersChoices (render (handleChoiceSelected s choice (.ok (some d)) ir).1)
      = false ∧
    offersRestart (render (handleChoiceSelected s choice (.ok (some d)) ir).1)
      = true ∧
    render (handleStartGame s theme (.ok (some d)) ir).1
      = View.gameOverScreen d.gameOverMessage := by
  have h1 : render (handleChoiceSelected s choice (.ok (some d)) ir).1
      = View.gameOverScreen d.gameOverMessage := by
    simp only [handleChoiceSelected, hgs, hkey, choicePreCallState, hover]
    simp only [Bool.true_eq_false, Bool.false_eq_true, if_false]
    split
    · simp [render, hkey, hstarted, hover]
    · cases ir <;> simp [render, hkey, hstarted, hover]
  have h2 : render (handleStartGame s theme (.ok (some d)) ir).1
      = View.gameOverScreen d.gameOverMessage := by
    simp only [handleStartGame, hkey]
    simp only [Bool.false_eq_true, if_false]
    split
    · simp [render, hover]
    · cases ir <;> simp [render, hover]
  refine ⟨h1, ?_, ?_, h2⟩ <;> rw [h1] <;> rfl

/-- Witness for C6 at the spec's worked scenario: choosing "Enter" returns
the game-over response. -/
theorem C6_witness :
    render (handleChoiceSelected libraryPlayingState "Enter"
        (.ok (some stacksEnding)) (.ok "url-4")).1
      = View.gameOverScreen (some "You vanish into the stacks forever.") ∧
    offersChoices (render (handleChoiceSelected libraryPlayingState "Enter"
        (.ok (some stacksEnding)) (.ok "url-4")).1) = false ∧
    offersRestart (render (handleChoiceSelected libraryPlayingState "Enter"
        (.ok (some stacksEnding)) (.ok "url-4")).1) = true :=
  have h := C6_gameover_response_shows_gameover_screen libraryPlayingState
    libraryScene "haunted library" "Enter" stacksEnding (.ok "url-4")
    rfl rfl rfl rfl
  ⟨h.1, h.2.1, h.2.2.1⟩

/-- C4 counterexample: from the Playing state showing the library image, a
thrown `getNextScene` does not return the session to the exact pre-request
state — the displayed image, cleared when the request began, stays blank
instead of being restored. -/
theorem C4_counterexample :
    ¬((handleChoiceSelected libraryPlayingState "Enter"
        (.thrown "network error") (.ok "unused")).1.currentImageUrl
      = libraryPlayingState.currentImageUrl) := by
  decide

/-- C4 (amended): on a story-generation failure (thrown or empty response)
the handler issues exactly one service call and surfaces an error message;
`startGame` from a reachable NotStarted state leaves every field at its
pre-request value except the surfaced error (in particular `gameState`
stays null and the session stays NotStarted); `chooseOption` leaves every
field at its pre-request value except the displayed image — cleared when
the request began and left blank — and the surfaced error. -/
theorem C4_text_failure_recovery (s t : AppState) (gs : GameStateFromAI)
    (theme choice msg : String) (ir : ServiceResult String)
    (hkey : s.apiKeyMissing = false) (hns : s.gameStarted = false)
    (hgs0 : s.gameState = none) (hlog : s.storyLog = [])
    (himg : s.currentImageUrl = none) (hld : s.isLoading = false)
    (htkey : t.apiKeyMissing = false) (htgs : t.gameState = some gs)
    (htld : t.isLoading = false) :
    (handleStartGame s theme (.thrown msg) ir).1 = { s with error := some msg } ∧
    (handleStartGame s theme (.ok none) ir).1
      = { s with error := some startNoDataError } ∧
    (handleStartGame s theme (.thrown msg) ir).2 = some (.initialScene theme) ∧
    (handleChoiceSelected t choice (.thrown msg) ir).1
      = { t with currentImageUrl := none, error := some msg } ∧
    (handleChoiceSelected t choice (.ok none) ir).1
      = { t with currentImageUrl := none, error := some nextNoDataError } ∧
    (handleChoiceSelected t choice (.thrown msg) ir).2
      = some (.nextScene gs.sceneDescription choice t.storyLog) := by
  refine ⟨?_, ?_, ?_, ?_, ?_, ?_⟩
  · simp [handleStartGame, hkey, hlog, himg, hld]
  · simp [handleStartGame, hkey, hlog, himg, hld]
  · simp [handleStartGame, hkey]
  · simp [handleChoiceSelected, choicePreCallState, htgs, htkey, htld]
  · simp [handleChoiceSelected, choicePreCallState, htgs, htkey, htld]
  · simp [handleChoiceSelected, htgs, htkey]

/-- Witness for C4 at the initial state and the library Playing state. -/
theorem C4_witness :
    (handleStartGame (initApp true) "haunted library"
        (.thrown "network error") (.ok "unused")).1
      = { initApp true with error := some "network error" } ∧
    (handleChoiceSelected libraryPlayingState "Enter"
        (.thrown "network error") (.ok "unused")).1
      = { libraryPlayingState with
          currentImageUrl := none
          error := some "network error" } :=
  have h := C4_text_failure_recovery (initApp true) libraryPlayingState
    libraryScene "haunted library" "Enter" "network error" (.ok "unused")
    rfl rfl rfl rfl rfl rfl rfl rfl rfl
  ⟨h.1, h.2.2.2.1⟩
